import Mathlib

/-!
A shallow embedding of the DDPG agent in `src/ddpg.py` (module `ddpg`).

Numeric vectors (numpy arrays, flattened parameter tensors) are `List ℚ`.
Networks appear in two roles: as the sequence of learnable parameters
(`Net`), which is what `hard_update` / `soft_update` / persistence act on,
and as abstract forward functions `Vec → Vec` or `Vec → Vec → ℚ`
(the Actor/Critic architectures live in `src/model.py`, which is not part
of the sources given, so they are collaborators).  Python exceptions are
an explicit `Except PyErr` channel; external randomness (the OU Gaussian
draw, numpy uniform draws, network initialisation) enters as arguments.
-/

namespace RLEPG

/-- A numeric vector: a numpy array or a flattened parameter tensor. -/
abbrev Vec := List ℚ

/-- Python exceptions that the embedded code can raise. -/
inductive PyErr where
  | attributeError (name : String)
  | fileNotFound (output : String) (file : String)
  | sizeMismatch
  | nameError (name : String)
  | zeroDivision
  | underfilledSample
deriving DecidableEq

/-- A file path of the model-persistence convention: the format strings of
src/ddpg.py lines 121, 125, 131, 135 are either of the form
`'\x7b\x7d/actor.pth'.format(output)` or `'\x7b\x7d/critic.pth'.format(output)`;
the constructor keeps the file name and the output directory separate, which
is injective because the file-name part is one of the two fixed names. -/
inductive FPath where
  | actor_pth (output : String)
  | critic_pth (output : String)
deriving DecidableEq

/-- A network as its sequence of learnable parameters, in `parameters()`
iteration order, flattened to scalars. -/
structure Net where
  params : List ℚ
deriving DecidableEq

/-- Modelled from the spec: the Python attribute lookup `target.param` in
src/ddpg.py line 44.  `src/model.py` is not among the given sources; spec
section 6 specifies only the iterable learnable-parameter sequence of the
approximators, and spec section 9 states that `param` is "a non-existent
attribute given the iteration pattern".  The lookup therefore raises
AttributeError, modelled as `none`. -/
def Net.attr_param (_ : Net) : Option ℚ := none

/-- Function `soft_update` from src/ddpg.py lines 38-45.  The loop body evaluates
`target.param.data * (1.0 - tau) + param.data * tau` for each zipped
parameter pair, where `target.param` is an attribute lookup on the whole
module (`Net.attr_param`), not the loop variable `target_param`.  With an
empty zip the body never runs and the call returns with the target
untouched; otherwise the first iteration raises before writing anything. -/
def soft_update (target source : Net) (tau : ℚ) : Except PyErr Net :=
  match target.params, source.params with
  | [], _ => .ok target
  | _ :: _, [] => .ok target
  | _ :: _, _ :: _ =>
    match target.attr_param with
    | none => .error (.attributeError "param")
    | some v =>
      .ok ⟨(List.zipWith (fun _t s => v * (1 - tau) + s * tau) target.params source.params)
            ++ target.params.drop source.params.length⟩

/-- Modelled from the spec: the intended elementwise soft update of spec
section 4.3 step 5, `target_param ← target_param*(1-tau) + source_param*tau`,
i.e. the loop of `soft_update` with `target.param` replaced by the loop
variable `target_param` (spec section 9 identifies this as the intent). -/
def soft_update_intended (target source : Net) (tau : ℚ) : Net :=
  ⟨(List.zipWith (fun t s => t * (1 - tau) + s * tau) target.params source.params)
    ++ target.params.drop source.params.length⟩

/-- One intended soft-update step on a single parameter pair: the new target
value from an old target value `t`, a fixed source value `s` and rate `tau`. -/
def softStep (s tau t : ℚ) : ℚ := t * (1 - tau) + s * tau

/-- Function `hard_update` from src/ddpg.py lines 30-35: for each zipped pair of
target and source parameters, copy the source value into the target slot;
target parameters beyond the zip are untouched. -/
def hard_update (target source : Net) : Net :=
  ⟨(List.zipWith (fun _t s => s) target.params source.params)
    ++ target.params.drop source.params.length⟩

/-- Modelled from the spec: the Ornstein-Uhlenbeck noise process
(`src/random_process.py` is not among the given sources).  Spec section 4.1:
state `x`; `sample()` updates `x ← x + theta*(mu - x)*dt + sigma*sqrt(dt)*N`
and returns the updated state; `reset_states()` restores the configured
initial value (default the zero vector).  `dt` defaults to 1, so the
`sqrt dt` factor is 1; the Gaussian draw is an explicit argument. -/
structure OUProcess where
  size : ℕ
  theta : ℚ
  mu : ℚ
  sigma : ℚ
  x : Vec
deriving DecidableEq

/-- The configured initial OU state: the zero vector of the action size. -/
def OUProcess.x0 (p : OUProcess) : Vec := List.replicate p.size 0

/-- One OU step with an explicit Gaussian draw: mutates `x` and returns it. -/
def OUProcess.sample (p : OUProcess) (draw : Vec) : Vec × OUProcess :=
  let x1 := List.zipWith (fun xi di => xi + p.theta * (p.mu - xi) + p.sigma * di) p.x draw
  (x1, { p with x := x1 })

/-- Method `reset_states`: back to the configured initial value. -/
def OUProcess.reset_states (p : OUProcess) : OUProcess := { p with x := p.x0 }

/-- One stored replay entry: the arguments of `SequentialMemory.append`
(observation, action, reward, terminal).  The observation and action are
`Option` because the agent fields they are read from start out as `None`. -/
structure Transition where
  obs : Option Vec
  action : Option Vec
  reward : ℚ
  terminal : Bool
deriving DecidableEq

/-- Modelled from the spec: `SequentialMemory` (`src/memory.py` is not among
the given sources).  Spec sections 3 and 4.2: a ring buffer of at most
`limit` transitions, append evicting the oldest entry once full; the source
constructs it with `window_length = 1`, under which entries degenerate to
plain single-step records. -/
structure Memory where
  limit : ℕ
  entries : List Transition
deriving DecidableEq

/-- Ring-buffer append: evicts the oldest entry once `limit` is reached. -/
def Memory.append (m : Memory) (t : Transition) : Memory :=
  if m.entries.length < m.limit then { m with entries := m.entries ++ [t] }
  else { m with entries := m.entries.drop 1 ++ [t] }

/-- Hyperparameter constants of src/ddpg.py lines 18-25. -/
def RMSIZE : ℕ := 100000

/-- Soft-update rate, line 21. -/
def TAU : ℚ := 1/100

/-- OU mean-reversion rate, line 22. -/
def OU_PSI : ℚ := 15/100

/-- OU volatility, line 23. -/
def OU_SIGMA : ℚ := 2/10

/-- SGD batch size, line 24. -/
def BATCH_SIZE : ℕ := 64

/-- Bootstrap discount factor, line 25. -/
def DISCOUNT : ℚ := 99/100

/-- The agent state of class DDPG (src/ddpg.py lines 58-87).  `actorF` is the
actor forward pass (a collaborator from `src/model.py`); the four parameter
lists are the online and target networks.  Adam optimizer internals are
external to every claim and are not carried. -/
structure DDPG where
  nb_states : ℕ
  nb_actions : ℕ
  actorF : Vec → Vec
  actor : Net
  actor_target : Net
  critic : Net
  critic_target : Net
  batch_size : ℕ
  discount : ℚ
  tau : ℚ
  ignore_step : ℕ
  memory : Memory
  random_process : OUProcess
  is_training : Bool
  s_t : Option Vec
  a_t : Option Vec

/-- Constructor `DDPG.__init__` (src/ddpg.py lines 59-87).  The four freshly constructed
networks are arguments (their random initialisation happens inside the
external Actor/Critic constructors); the constructor hard-updates both
targets from the online networks (lines 71-72) and fills in the constants of
lines 18-25 and 74-84. -/
def DDPG.init (nb_states nb_actions : ℕ) (actorF : Vec → Vec)
    (actor0 actor_target0 critic0 critic_target0 : Net) : DDPG :=
  { nb_states := nb_states
    nb_actions := nb_actions
    actorF := actorF
    actor := actor0
    actor_target := hard_update actor_target0 actor0
    critic := critic0
    critic_target := hard_update critic_target0 critic0
    batch_size := BATCH_SIZE
    discount := DISCOUNT
    tau := TAU
    ignore_step := 10000
    memory := { limit := RMSIZE, entries := [] }
    random_process := { size := nb_actions, theta := OU_PSI, mu := 0, sigma := OU_SIGMA,
                        x := List.replicate nb_actions 0 }
    is_training := true
    s_t := none
    a_t := none }

/-- Method `DDPG.observe` (src/ddpg.py lines 96-99): when training, append
`(s_t, a_t, r_t, done)` to replay memory and advance `s_t`; otherwise do
nothing. -/
def DDPG.observe (ag : DDPG) (r_t : ℚ) (s_t1 : Vec) (done : Bool) : DDPG :=
  if ag.is_training then
    { ag with memory := ag.memory.append ⟨ag.s_t, ag.a_t, r_t, done⟩, s_t := some s_t1 }
  else ag

/-- Method `DDPG.random_action` (src/ddpg.py lines 101-104): a uniform draw from
`[-1,1]^nb_actions` (the draw `u` is the external numpy sample) is recorded
in `a_t` and returned. -/
def DDPG.random_action (ag : DDPG) (u : Vec) : Vec × DDPG :=
  (u, { ag with a_t := some u })

/-- Method `DDPG.select_action` (src/ddpg.py lines 106-110): the actor forward pass
on `s_t`, plus `is_training * random_process.sample()` — the sample is drawn
unconditionally and its scaling is the 0/1 coercion of the flag; the result
is recorded in `a_t` and returned.  The tensor/numpy conversion and the
batch-of-one wrapping of lines 107 are glue absorbed into `actorF`. -/
def DDPG.select_action (ag : DDPG) (s_t draw : Vec) : Vec × DDPG :=
  let base := ag.actorF s_t
  let sampled := ag.random_process.sample draw
  let action :=
    List.zipWith (fun b n => b + (if ag.is_training then (1 : ℚ) else 0) * n) base sampled.1
  (action, { ag with random_process := sampled.2, a_t := some action })

/-- Method `DDPG.reset` (src/ddpg.py lines 112-114). -/
def DDPG.reset (ag : DDPG) (obs : Vec) : DDPG :=
  { ag with s_t := some obs, random_process := ag.random_process.reset_states }

/-- A flat filesystem of serialized state dicts, newest write first. -/
abbrev StateDict := List ℚ

/-- The filesystem the persistence calls act on. -/
abbrev FS := List (FPath × StateDict)

/-- Read a path: first (most recent) write wins; `none` is a missing file. -/
def FS.read (fs : FS) (p : FPath) : Option StateDict :=
  match fs with
  | [] => none
  | (q, sd) :: rest => if q = p then some sd else FS.read rest p

/-- Write a path (torch.save): the new entry shadows older ones. -/
def FS.write (fs : FS) (p : FPath) (sd : StateDict) : FS := (p, sd) :: fs

/-- Call `torch.nn.Module.load_state_dict`: replaces the module parameters with
the stored ones, raising when the stored dict does not fit the module
(modelled as a parameter-count check). -/
def Net.load_state_dict (n : Net) (sd : StateDict) : Except PyErr Net :=
  if sd.length = n.params.length then .ok ⟨sd⟩ else .error .sizeMismatch

/-- Method `DDPG.save_model` (src/ddpg.py lines 128-136): write the actor state
dict to `actor.pth` and the critic state dict to `critic.pth` under the
output directory. -/
def DDPG.save_model (ag : DDPG) (output : String) (fs : FS) : FS :=
  FS.write (FS.write fs (.actor_pth output) ag.actor.params)
    (.critic_pth output) ag.critic.params

/-- Method `DDPG.load_weights` (src/ddpg.py lines 116-126), returning the updated
agent together with the list of file paths read, in order.  Line 125 of the
source loads `'\x7b\x7d/actor.pth'.format(output)` into the critic as well —
both reads are of `actor_pth`. -/
def DDPG.load_weights (ag : DDPG) (output : Option String) (fs : FS) :
    Except PyErr (DDPG × List FPath) :=
  match output with
  | none => .ok (ag, [])
  | some out =>
    match FS.read fs (.actor_pth out) with
    | none => .error (.fileNotFound out "actor.pth")
    | some sdA =>
      match ag.actor.load_state_dict sdA with
      | .error e => .error e
      | .ok actor1 =>
        match FS.read fs (.actor_pth out) with
        | none => .error (.fileNotFound out "actor.pth")
        | some sdC =>
          match ag.critic.load_state_dict sdC with
          | .error e => .error e
          | .ok critic1 =>
            .ok ({ ag with actor := actor1, critic := critic1 },
                 [.actor_pth out, .actor_pth out])

/-- Modelled from the spec: the `terminal_batch` entry that
`sample_and_split` produces for a stored terminal flag (`src/memory.py` is
not among the given sources).  Spec section 4.2: it holds the continuation
mask, 1.0 for a non-terminal transition and 0.0 for a terminal one. -/
def continuation_mask (terminal : Bool) : ℚ := if terminal then 0 else 1

/-- src/ddpg.py lines 142-145: `next_q_values = critic_target([next_states,
actor_target(next_states)])`, elementwise over the batch; the two target
forward passes are collaborators. -/
def next_q_values {n : ℕ} (criticT : Vec → Vec → ℚ) (actorT : Vec → Vec)
    (next_state_batch : Fin n → Vec) : Fin n → ℚ :=
  fun i => criticT (next_state_batch i) (actorT (next_state_batch i))

/-- src/ddpg.py lines 147-149: `target_q_batch = reward_batch + discount *
terminal_batch * next_q_values`, elementwise over the batch. -/
def target_q_batch {n : ℕ} (discount : ℚ)
    (reward_batch terminal_batch nq : Fin n → ℚ) : Fin n → ℚ :=
  fun i => reward_batch i + discount * terminal_batch i * nq i

/-- Method `DDPG.update_policy` (src/ddpg.py lines 138-168) as a state transform.
Sampling from a memory with fewer than `batch_size` entries is the
undefined precondition violation of spec section 7, modelled as an error;
the numeric effect of the two Adam steps on the online parameters is
external (torch) and not modelled; the two closing `soft_update` calls
(lines 167-168) are the source function above, whose error propagates. -/
def DDPG.update_policy (ag : DDPG) : Except PyErr DDPG :=
  if ag.memory.entries.length < ag.batch_size then .error .underfilledSample
  else
    match soft_update ag.actor_target ag.actor ag.tau with
    | .error e => .error e
    | .ok at1 =>
      match soft_update ag.critic_target ag.critic ag.tau with
      | .error e => .error e
      | .ok ct1 => .ok { ag with actor_target := at1, critic_target := ct1 }

/-- The observable calls made by one run of `DDPG.train`, each tagged with
the loop counter `step` current when the call was made.  `updatePolicyEv`
additionally carries the number of transitions appended to the agent's
replay memory up to (and therefore before) that `update_policy` call. -/
inductive Event where
  | envResetEv
  | selectActionEv (step : ℕ)
  | envStepEv (step : ℕ)
  | observeEv (step : ℕ)
  | updatePolicyEv (step : ℕ) (appendsSoFar : ℕ)
  | saveModelEv (step : ℕ)
  | doneBranchEv (step : ℕ)
deriving DecidableEq

/-- The local state of one `DDPG.train` run (src/ddpg.py lines 170-211):
the locals of lines 171-175 plus the two agent objects in play (`selfAg` is
`self`; `gAgent` is the binding of the module-level name `agent`, which
lines 179 and 181 read), the call counters that index the external random
streams, the running count of replay appends, the filesystem the checkpoint
saves write, and the event trace. -/
structure LoopSt where
  selfAg : DDPG
  gAgent : Option DDPG
  obs : Option Vec
  step : ℕ
  episode_steps : ℕ
  episode_reward : ℚ
  episode : ℕ
  nsamp : ℕ
  resets : ℕ
  appends : ℕ
  fs : FS
  trace : List Event

/-- Line 185-186: `if max_episode_length and episode_steps >=
max_episode_length - 1: done = True`.  `None` and `0` are both falsy. -/
def melDone (mel : Option ℕ) (episode_steps : ℕ) (done0 : Bool) : Bool :=
  match mel with
  | none => done0
  | some m => if m ≠ 0 ∧ episode_steps ≥ m - 1 then true else done0

/-- Lines 189-190 of `DDPG.train`: the warm-up guard and the learning
update.  The update event records the loop counter and the number of replay
appends made so far (all of which happened before this call). -/
def trainUpd (st4 : LoopSt) : Except (List Event × PyErr) LoopSt :=
  if st4.step > st4.selfAg.ignore_step then
    let st5 : LoopSt :=
      { st4 with trace := st4.trace ++ [Event.updatePolicyEv st4.step st4.appends] }
    match st5.selfAg.update_policy with
    | .error e => .error (st5.trace, e)
    | .ok ag1 => .ok { st5 with selfAg := ag1 }
  else .ok st4

/-- Lines 192-193 of `DDPG.train`: `if step % int(num_iter/3) == 0:
self.save_model(output)`; `int(num_iter/3)` is zero when `num_iter < 3`,
making the modulus raise ZeroDivisionError. -/
def trainSave (numIter : ℕ) (output : String) (st5 : LoopSt) :
    Except (List Event × PyErr) LoopSt :=
  if numIter / 3 = 0 then .error (st5.trace, .zeroDivision)
  else
    .ok <|
      if st5.step % (numIter / 3) = 0 then
        { st5 with fs := st5.selfAg.save_model output st5.fs,
                   trace := st5.trace ++ [Event.saveModelEv st5.step] }
      else st5

/-- Lines 195-211 of `DDPG.train`: the counter bumps, the observation
advance, and the episode-end branch, which calls `self.select_action` on
the final observation and appends a zero-reward non-terminal padding
transition to `self.memory` (both on `self`, not on the module global). -/
def trainFinish (noise : ℕ → Vec) (o2 : Vec) (reward : ℚ) (done : Bool)
    (st6 : LoopSt) : LoopSt :=
  let st7 : LoopSt :=
    { st6 with step := st6.step + 1, episode_steps := st6.episode_steps + 1,
               episode_reward := st6.episode_reward + reward, obs := some o2 }
  if done then
    let sel2 := st7.selfAg.select_action o2 (noise st7.nsamp)
    let ag3 : DDPG :=
      { sel2.2 with memory := sel2.2.memory.append ⟨some o2, some sel2.1, 0, false⟩ }
    { st7 with selfAg := ag3, nsamp := st7.nsamp + 1,
               appends := st7.appends + 1, obs := none,
               episode_reward := 0, episode_steps := 0,
               episode := st7.episode + 1,
               trace := st7.trace ++ [Event.doneBranchEv st7.step] }
  else st7

/-- Lines 181-211 of the while body of `DDPG.train`, run after the
episode-start block with the current observation `o`: module-global action
selection, environment step, `self.observe`, then the guarded learning
update, the checkpoint save, and the counter/episode bookkeeping.
`envStep` maps the env.step call count (the loop counter, since both advance
once per iteration) to `(observation, reward, done)`; `noise` maps the OU
sample call count to its Gaussian draw.  An uncaught Python exception aborts
the run, carrying the trace so far. -/
def trainRest (envStep : ℕ → Vec × ℚ × Bool) (noise : ℕ → Vec)
    (numIter : ℕ) (output : String) (mel : Option ℕ) (st1 : LoopSt) (o : Vec) :
    Except (List Event × PyErr) LoopSt :=
    -- line 181: `action = agent.select_action(observation)`
    match st1.gAgent with
    | none => .error (st1.trace, .nameError "agent")
    | some g =>
      let sel := g.select_action o (noise st1.nsamp)
      let st2 : LoopSt :=
        { st1 with gAgent := some sel.2, nsamp := st1.nsamp + 1,
                   trace := st1.trace ++ [Event.selectActionEv st1.step] }
      -- lines 183-184: env.step
      let es := envStep st2.step
      let st3 : LoopSt := { st2 with trace := st2.trace ++ [Event.envStepEv st2.step] }
      -- lines 185-186
      let done := melDone mel st3.episode_steps es.2.2
      -- line 188: `self.observe(reward, observ2, done)`
      let st4 : LoopSt :=
        { st3 with selfAg := st3.selfAg.observe es.2.1 es.1 done,
                   appends := st3.appends + (if st3.selfAg.is_training then 1 else 0),
                   trace := st3.trace ++ [Event.observeEv st3.step] }
      trainUpd st4 >>= fun st5 =>
        trainSave numIter output st5 >>= fun st6 =>
          .ok (trainFinish noise es.1 es.2.1 done st6)

/-- One iteration of the while body of `DDPG.train` (src/ddpg.py lines
177-211), faithful to the line order: the episode-start block of lines
177-179 (env.reset runs before the module-level name `agent` is evaluated;
`envReset` maps the env.reset call count to its observation), then
`trainRest` for lines 181-211. -/
def trainIter (envReset : ℕ → Vec) (envStep : ℕ → Vec × ℚ × Bool) (noise : ℕ → Vec)
    (numIter : ℕ) (output : String) (mel : Option ℕ) (st : LoopSt) :
    Except (List Event × PyErr) LoopSt :=
  match st.obs with
  | some o => trainRest envStep noise numIter output mel st o
  | none =>
    let o := envReset st.resets
    let st1 : LoopSt :=
      { st with resets := st.resets + 1, trace := st.trace ++ [Event.envResetEv] }
    match st1.gAgent with
    | none => .error (st1.trace, .nameError "agent")
    | some g =>
      trainRest envStep noise numIter output mel
        { st1 with gAgent := some (g.reset o), obs := some o } o

/-- The while loop of `DDPG.train` (line 176), fueled: `step` grows by one
per iteration, so `numIter` iterations of fuel make the fueled loop exact.
Returns the event trace and the uncaught exception, if any. -/
def trainLoop (envReset : ℕ → Vec) (envStep : ℕ → Vec × ℚ × Bool) (noise : ℕ → Vec)
    (numIter : ℕ) (output : String) (mel : Option ℕ) :
    ℕ → LoopSt → List Event × Option PyErr
  | 0, st => (st.trace, none)
  | fuel + 1, st =>
    if st.step < numIter then
      match trainIter envReset envStep noise numIter output mel st with
      | .error (tr, e) => (tr, some e)
      | .ok st' => trainLoop envReset envStep noise numIter output mel fuel st'
    else (st.trace, none)

/-- The binding of the module-level name `agent` read by src/ddpg.py lines
179 and 181: the module `ddpg` never assigns it, so the binding is absent. -/
def module_agent : Option DDPG := none

/-- Method `DDPG.train` (src/ddpg.py lines 170-211).  `gAgent` is the binding of
the module-level name `agent` at call time (`module_agent` for the module as
written); environment and randomness are the explicit oracles of
`trainIter`. -/
def DDPG.train (ag : DDPG) (gAgent : Option DDPG)
    (envReset : ℕ → Vec) (envStep : ℕ → Vec × ℚ × Bool) (noise : ℕ → Vec)
    (numIter : ℕ) (output : String) (mel : Option ℕ) : List Event × Option PyErr :=
  trainLoop envReset envStep noise numIter output mel numIter
    { selfAg := ag, gAgent := gAgent, obs := none, step := 0, episode_steps := 0,
      episode_reward := 0, episode := 0, nsamp := 0, resets := 0, appends := 0,
      fs := [], trace := [] }

/-- A concrete agent with one actor parameter 1 and one critic parameter 2,
used to evaluate the persistence round trip. -/
def agC2 : DDPG := DDPG.init 1 1 id ⟨[1]⟩ ⟨[5]⟩ ⟨[2]⟩ ⟨[6]⟩

/-- A concrete one-action agent with a constant-zero actor forward pass. -/
def agC4 : DDPG := DDPG.init 1 1 (fun _ => [0]) ⟨[1]⟩ ⟨[2]⟩ ⟨[3]⟩ ⟨[4]⟩

/-- A concrete two-state agent in training mode (as constructed). -/
def agC6 : DDPG := DDPG.init 2 1 (fun _ => [0]) ⟨[1]⟩ ⟨[2]⟩ ⟨[3]⟩ ⟨[4]⟩

/-- The same agent with the training flag cleared. -/
def agC6f : DDPG := { agC6 with is_training := false }

/-- A concrete agent whose warm-up threshold is 1 and whose networks have no
parameters (so the buggy `soft_update` zip is empty and `update_policy`
returns), exercising the learning-update branch of `train` in few steps. -/
def agC8 : DDPG :=
  { nb_states := 1
    nb_actions := 1
    actorF := fun _ => [0]
    actor := ⟨[]⟩
    actor_target := ⟨[]⟩
    critic := ⟨[]⟩
    critic_target := ⟨[]⟩
    batch_size := 0
    discount := DISCOUNT
    tau := TAU
    ignore_step := 1
    memory := { limit := RMSIZE, entries := [] }
    random_process := { size := 1, theta := OU_PSI, mu := 0, sigma := OU_SIGMA, x := [0] }
    is_training := true
    s_t := none
    a_t := none }

/-- Every learning-update event in a trace happened at a loop counter
strictly past the warm-up threshold `ign` and — when the agent trains — after
at least `ign` replay appends. -/
def TraceOK (ign : ℕ) (tr : Bool) (evs : List Event) : Prop :=
  ∀ s k, Event.updatePolicyEv s k ∈ evs → ign < s ∧ (tr = true → ign ≤ k)

/-- The loop invariant of one `train` run: the warm-up threshold and the
training flag of `self` never change, the append count dominates the loop
counter while training, and the trace so far is `TraceOK`. -/
def LoopInv (ign : ℕ) (tr : Bool) (st : LoopSt) : Prop :=
  st.selfAg.ignore_step = ign ∧ st.selfAg.is_training = tr
    ∧ (tr = true → st.step ≤ st.appends) ∧ TraceOK ign tr st.trace

/-- The conclusion of one loop iteration: an invariant-satisfying next state,
or an aborted run whose trace is still `TraceOK`. -/
def IterOK (ign : ℕ) (tr : Bool) : Except (List Event × PyErr) LoopSt → Prop
  | .ok st' => LoopInv ign tr st'
  | .error (evs, _) => TraceOK ign tr evs

/-- As `IterOK`, and additionally a successful stage kept the loop counter
and the append count of the state `st0` it started from. -/
def IterOKKeep (ign : ℕ) (tr : Bool) (st0 : LoopSt) :
    Except (List Event × PyErr) LoopSt → Prop
  | .ok st' => LoopInv ign tr st' ∧ st'.step = st0.step ∧ st'.appends = st0.appends
  | .error (evs, _) => TraceOK ign tr evs

/-! ## Helper lemmas -/

theorem zipWith_snd_eq (a b : List ℚ) (h : a.length = b.length) :
    List.zipWith (fun _t s => s) a b = b := by
  induction a generalizing b with
  | nil =>
    cases b with
    | nil => rfl
    | cons y ys => simp at h
  | cons x xs ih =>
    cases b with
    | nil => simp at h
    | cons y ys => simp [ih ys (by simpa using h)]

theorem hard_update_params (target source : Net)
    (h : target.params.length = source.params.length) :
    (hard_update target source).params = source.params := by
  show List.zipWith (fun _t s => s) target.params source.params
      ++ target.params.drop source.params.length = source.params
  rw [← h, List.drop_length, List.append_nil, zipWith_snd_eq _ _ h]

theorem softStep_iterate (s tau t : ℚ) (n : ℕ) :
    (softStep s tau)^[n] t - s = (1 - tau) ^ n * (t - s) := by
  induction n with
  | zero => simp
  | succ n ih =>
    have key : ∀ y : ℚ, softStep s tau y - s = (1 - tau) * (y - s) := by
      intro y
      unfold softStep
      ring
    rw [Function.iterate_succ_apply', key, ih, pow_succ]
    ring

theorem zipWith_fst (a b : List ℚ) (h : a.length = b.length) :
    List.zipWith (fun x _y => x) a b = a := by
  induction a generalizing b with
  | nil => rfl
  | cons x xs ih =>
    cases b with
    | nil => simp at h
    | cons y ys => rw [List.zipWith_cons_cons, ih ys (by simpa using h)]

/-! ## Claim theorems -/

/-- C1: the elementwise blend `target*(1-tau) + source*tau` and its geometric
decay are the spec's intent (`softStep`), but `soft_update` as written reads
the non-existent attribute `target.param`, so it raises AttributeError on
any pair of networks with a non-empty parameter zip — e.g. one-parameter
target 1 and source 0 with tau = 1/100 — instead of blending. -/
theorem C1_soft_update_raises (s tau t : ℚ) (n : ℕ) (h0 : 0 < tau) (h1 : tau < 1) :
    soft_update ⟨[1]⟩ ⟨[0]⟩ (1/100) = .error (.attributeError "param")
    ∧ |(softStep s tau)^[n] t - s| = |t - s| * (1 - tau) ^ n := by
  refine ⟨rfl, ?_⟩
  rw [softStep_iterate, abs_mul, abs_pow,
    abs_of_nonneg (by linarith : (0 : ℚ) ≤ 1 - tau), mul_comm]

theorem C1_soft_update_raises_witness :
    ((0 : ℚ) < 1/2 ∧ (1 : ℚ)/2 < 1)
    ∧ (soft_update ⟨[1]⟩ ⟨[0]⟩ (1/100) = .error (.attributeError "param")
       ∧ |(softStep 0 (1/2))^[2] 1 - 0| = |1 - 0| * ((1 : ℚ) - 1/2) ^ 2) :=
  ⟨⟨by norm_num, by norm_num⟩,
   C1_soft_update_raises 0 (1/2) 1 2 (by norm_num) (by norm_num)⟩

/-- C2: `save_model` writes actor.pth and critic.pth, but `load_weights`
reads actor.pth into BOTH networks (src/ddpg.py line 125), so the round trip
restores the actor and overwrites the critic with the actor's saved
parameters: with actor [1] and critic [2], the reloaded critic is [1]. -/
theorem C2_round_trip_clobbers_critic :
    agC2.actor.params = [1] ∧ agC2.critic.params = [2]
    ∧ agC2.load_weights (some "out") (agC2.save_model "out" [])
        = .ok ({ agC2 with actor := ⟨[1]⟩, critic := ⟨[1]⟩ },
               [.actor_pth "out", .actor_pth "out"]) :=
  ⟨rfl, rfl, rfl⟩

/-- C3: in `update_policy`, the bootstrap target of every sampled transition
is reward + discount * mask * critic_target(next_state, actor_target
(next_state)), where the mask is 1 for a non-terminal and 0 for a terminal
transition, applied multiplicatively to the target-critic value. -/
theorem C3_bootstrap_target {n : ℕ} (discount : ℚ) (criticT : Vec → Vec → ℚ)
    (actorT : Vec → Vec) (reward : Fin n → ℚ) (next_state_batch : Fin n → Vec)
    (terminals : Fin n → Bool) (i : Fin n) :
    target_q_batch discount reward (fun j => continuation_mask (terminals j))
        (next_q_values criticT actorT next_state_batch) i
      = reward i + discount * (if terminals i then 0 else 1)
          * criticT (next_state_batch i) (actorT (next_state_batch i)) := rfl

/-- C4: `select_action` returns the actor output plus `is_training` times a
freshly drawn noise sample, records the result in `a_t`, and advances the
noise state on every call — also when `is_training` is false. -/
theorem C4_select_action (ag : DDPG) (s_t draw : Vec)
    (h : (ag.actorF s_t).length = ((ag.random_process.sample draw).1).length) :
    ((ag.select_action s_t draw).2).random_process = (ag.random_process.sample draw).2
    ∧ ((ag.select_action s_t draw).2).a_t = some (ag.select_action s_t draw).1
    ∧ (ag.select_action s_t draw).1
        = if ag.is_training then
            List.zipWith (· + ·) (ag.actorF s_t) (ag.random_process.sample draw).1
          else ag.actorF s_t := by
  refine ⟨rfl, rfl, ?_⟩
  show List.zipWith (fun b n => b + (if ag.is_training then (1 : ℚ) else 0) * n)
      (ag.actorF s_t) (ag.random_process.sample draw).1
    = if ag.is_training then
        List.zipWith (· + ·) (ag.actorF s_t) (ag.random_process.sample draw).1
      else ag.actorF s_t
  cases hb : ag.is_training with
  | true => simp
  | false => simpa using zipWith_fst _ _ h

theorem C4_select_action_witness :
    (agC4.actorF [0]).length = ((agC4.random_process.sample [0]).1).length
    ∧ (((agC4.select_action [0] [0]).2).random_process = (agC4.random_process.sample [0]).2
       ∧ ((agC4.select_action [0] [0]).2).a_t = some (agC4.select_action [0] [0]).1
       ∧ (agC4.select_action [0] [0]).1
           = if agC4.is_training then
               List.zipWith (· + ·) (agC4.actorF [0]) (agC4.random_process.sample [0]).1
             else agC4.actorF [0]) :=
  ⟨by decide, C4_select_action agC4 [0] [0] (by decide)⟩

/-- C5: `hard_update` makes every corresponding parameter pair exactly
equal, and the constructor applies it once per target network, so a freshly
constructed agent has actor_target = actor and critic_target = critic. -/
theorem C5_hard_update (target source actor0 actor_target0 critic0 critic_target0 : Net)
    (nb_s nb_a : ℕ) (F : Vec → Vec)
    (h : target.params.length = source.params.length)
    (ha : actor_target0.params.length = actor0.params.length)
    (hc : critic_target0.params.length = critic0.params.length) :
    (hard_update target source).params = source.params
    ∧ (DDPG.init nb_s nb_a F actor0 actor_target0 critic0 critic_target0).actor_target.params
        = (DDPG.init nb_s nb_a F actor0 actor_target0 critic0 critic_target0).actor.params
    ∧ (DDPG.init nb_s nb_a F actor0 actor_target0 critic0 critic_target0).critic_target.params
        = (DDPG.init nb_s nb_a F actor0 actor_target0 critic0 critic_target0).critic.params :=
  ⟨hard_update_params _ _ h, hard_update_params _ _ ha, hard_update_params _ _ hc⟩

theorem C5_hard_update_witness :
    (hard_update ⟨[7]⟩ ⟨[9]⟩).params = Net.params ⟨[9]⟩
    ∧ (DDPG.init 1 1 id ⟨[1]⟩ ⟨[2]⟩ ⟨[3]⟩ ⟨[4]⟩).actor_target.params
        = (DDPG.init 1 1 id ⟨[1]⟩ ⟨[2]⟩ ⟨[3]⟩ ⟨[4]⟩).actor.params
    ∧ (DDPG.init 1 1 id ⟨[1]⟩ ⟨[2]⟩ ⟨[3]⟩ ⟨[4]⟩).critic_target.params
        = (DDPG.init 1 1 id ⟨[1]⟩ ⟨[2]⟩ ⟨[3]⟩ ⟨[4]⟩).critic.params :=
  C5_hard_update ⟨[7]⟩ ⟨[9]⟩ ⟨[1]⟩ ⟨[2]⟩ ⟨[3]⟩ ⟨[4]⟩ 1 1 id rfl rfl rfl

/-- C6: in training mode `observe` appends `(s_t, a_t, r_t, done)` to replay
memory and advances `s_t` to the new observation, leaving the action record,
networks and noise state alone; out of training mode it changes nothing. -/
theorem C6_observe (ag : DDPG) (r : ℚ) (s1 : Vec) (d : Bool) :
    (ag.is_training = true →
       (ag.observe r s1 d).memory = ag.memory.append ⟨ag.s_t, ag.a_t, r, d⟩
       ∧ (ag.observe r s1 d).s_t = some s1
       ∧ (ag.observe r s1 d).a_t = ag.a_t
       ∧ (ag.observe r s1 d).actor = ag.actor
       ∧ (ag.observe r s1 d).actor_target = ag.actor_target
       ∧ (ag.observe r s1 d).critic = ag.critic
       ∧ (ag.observe r s1 d).critic_target = ag.critic_target
       ∧ (ag.observe r s1 d).random_process = ag.random_process
       ∧ (ag.observe r s1 d).is_training = ag.is_training)
    ∧ (ag.is_training = false → ag.observe r s1 d = ag) := by
  constructor
  · intro h
    simp [DDPG.observe, h]
  · intro h
    simp [DDPG.observe, h]

theorem C6_observe_witness :
    ((agC6.observe 1 [5, 5] false).memory
        = agC6.memory.append ⟨agC6.s_t, agC6.a_t, 1, false⟩
     ∧ (agC6.observe 1 [5, 5] false).s_t = some [5, 5])
    ∧ agC6f.observe 1 [5, 5] false = agC6f :=
  ⟨⟨((C6_observe agC6 1 [5, 5] false).1 rfl).1,
    ((C6_observe agC6 1 [5, 5] false).1 rfl).2.1⟩,
   (C6_observe agC6f 1 [5, 5] false).2 rfl⟩

/-- C7: `load_weights None` is a silent no-op that reads no file and changes
no parameters; with a directory whose actor.pth is missing the lookup error
propagates, and with a present but ill-fitting file the deserialization
error propagates. -/
theorem C7_load_weights (ag : DDPG) (fs fs2 : FS) (out : String) (sd : StateDict)
    (h : FS.read fs (.actor_pth out) = none)
    (h2 : FS.read fs2 (.actor_pth out) = some sd)
    (h3 : ¬ sd.length = ag.actor.params.length) :
    ag.load_weights none fs = .ok (ag, [])
    ∧ ag.load_weights (some out) fs = .error (.fileNotFound out "actor.pth")
    ∧ ag.load_weights (some out) fs2 = .error .sizeMismatch := by
  refine ⟨rfl, ?_, ?_⟩
  · simp [DDPG.load_weights, h]
  · simp [DDPG.load_weights, h2, Net.load_state_dict, h3]

theorem C7_load_weights_witness :
    agC6.load_weights none [] = .ok (agC6, [])
    ∧ agC6.load_weights (some "o") [] = .error (.fileNotFound "o" "actor.pth")
    ∧ agC6.load_weights (some "o") [(.actor_pth "o", [1, 2])] = .error .sizeMismatch :=
  C7_load_weights agC6 [] [(.actor_pth "o", [1, 2])] "o" [1, 2] rfl rfl (by decide)

/-- C10: after `select_action` and after `random_action`, the recorded `a_t`
is exactly the returned action. -/
theorem C10_a_t_recorded (ag : DDPG) (s_t draw u : Vec) :
    ((ag.select_action s_t draw).2).a_t = some (ag.select_action s_t draw).1
    ∧ ((ag.random_action u).2).a_t = some (ag.random_action u).1 :=
  ⟨rfl, rfl⟩

theorem observe_ignore_step (ag : DDPG) (r : ℚ) (s1 : Vec) (d : Bool) :
    (ag.observe r s1 d).ignore_step = ag.ignore_step := by
  unfold DDPG.observe
  split <;> rfl

theorem observe_is_training (ag : DDPG) (r : ℚ) (s1 : Vec) (d : Bool) :
    (ag.observe r s1 d).is_training = ag.is_training := by
  unfold DDPG.observe
  split <;> rfl

theorem update_policy_keeps (ag ag' : DDPG) (h : ag.update_policy = .ok ag') :
    ag'.ignore_step = ag.ignore_step ∧ ag'.is_training = ag.is_training := by
  unfold DDPG.update_policy at h
  split at h
  · cases h
  · split at h
    · cases h
    · split at h
      · cases h
      · cases h
        exact ⟨rfl, rfl⟩

theorem TraceOK_snoc (ign : ℕ) (tr : Bool) (evs : List Event) (ev : Event)
    (h : TraceOK ign tr evs)
    (h2 : ∀ s k, ev = Event.updatePolicyEv s k → ign < s ∧ (tr = true → ign ≤ k)) :
    TraceOK ign tr (evs ++ [ev]) := by
  intro s k hm
  rcases List.mem_append.mp hm with h' | h'
  · exact h s k h'
  · rw [List.mem_singleton] at h'
    exact h2 s k h'.symm

theorem trainUpd_inv (ign : ℕ) (tr : Bool) (st4 : LoopSt) (hI : LoopInv ign tr st4) :
    IterOKKeep ign tr st4 (trainUpd st4) := by
  obtain ⟨h1, h2, h3, h4⟩ := hI
  unfold trainUpd
  split
  · next hguard =>
    have hev : ∀ s k, Event.updatePolicyEv st4.step st4.appends = Event.updatePolicyEv s k →
        ign < s ∧ (tr = true → ign ≤ k) := by
      intro s k he
      injection he with he1 he2
      subst he1
      subst he2
      rw [h1] at hguard
      refine ⟨hguard, fun htr => ?_⟩
      have := h3 htr
      omega
    dsimp only
    split
    · next e heq => exact TraceOK_snoc _ _ _ _ h4 hev
    · next ag1 heq =>
      refine ⟨⟨?_, ?_, h3, TraceOK_snoc _ _ _ _ h4 hev⟩, rfl, rfl⟩
      · exact (update_policy_keeps _ _ heq).1.trans h1
      · exact (update_policy_keeps _ _ heq).2.trans h2
  · exact ⟨⟨h1, h2, h3, h4⟩, rfl, rfl⟩

theorem trainSave_inv (numIter : ℕ) (output : String) (ign : ℕ) (tr : Bool)
    (st5 : LoopSt) (hI : LoopInv ign tr st5) :
    IterOKKeep ign tr st5 (trainSave numIter output st5) := by
  obtain ⟨h1, h2, h3, h4⟩ := hI
  unfold trainSave
  split
  · exact h4
  · split
    · exact ⟨⟨h1, h2, h3, TraceOK_snoc _ _ _ _ h4 (fun s k he => nomatch he)⟩, rfl, rfl⟩
    · exact ⟨⟨h1, h2, h3, h4⟩, rfl, rfl⟩

theorem IterOK_bind_keep (ign : ℕ) (tr : Bool) (st0 : LoopSt)
    (r : Except (List Event × PyErr) LoopSt)
    (f : LoopSt → Except (List Event × PyErr) LoopSt)
    (hr : IterOKKeep ign tr st0 r)
    (hf : ∀ st', LoopInv ign tr st' → st'.step = st0.step → st'.appends = st0.appends →
        IterOK ign tr (f st')) :
    IterOK ign tr (r >>= f) := by
  cases r with
  | error e => exact hr
  | ok st' => exact hf st' hr.1 hr.2.1 hr.2.2

theorem trainFinish_inv (noise : ℕ → Vec) (o2 : Vec) (reward : ℚ) (done : Bool)
    (ign : ℕ) (tr : Bool) (st6 : LoopSt)
    (h1 : st6.selfAg.ignore_step = ign) (h2 : st6.selfAg.is_training = tr)
    (h3 : tr = true → st6.step < st6.appends) (h4 : TraceOK ign tr st6.trace) :
    LoopInv ign tr (trainFinish noise o2 reward done st6) := by
  unfold trainFinish
  dsimp only
  split
  · refine ⟨?_, ?_, ?_, ?_⟩
    · exact h1
    · exact h2
    · intro htr
      have := h3 htr
      show st6.step + 1 ≤ st6.appends + 1
      omega
    · exact TraceOK_snoc _ _ _ _ h4 (fun s k he => nomatch he)
  · refine ⟨?_, ?_, ?_, ?_⟩
    · exact h1
    · exact h2
    · intro htr
      have := h3 htr
      show st6.step + 1 ≤ st6.appends
      omega
    · exact h4

theorem trainRest_inv (envS : ℕ → Vec × ℚ × Bool) (noise : ℕ → Vec)
    (numIter : ℕ) (output : String) (mel : Option ℕ) (ign : ℕ) (tr : Bool)
    (st1 : LoopSt) (o : Vec) (hI : LoopInv ign tr st1) :
    IterOK ign tr (trainRest envS noise numIter output mel st1 o) := by
  obtain ⟨h1, h2, h3, h4⟩ := hI
  cases hg : st1.gAgent with
  | none =>
    simp only [trainRest, hg]
    exact h4
  | some g =>
    simp only [trainRest, hg]
    refine IterOK_bind_keep ign tr _ _ _ (trainUpd_inv ign tr _ ?_) ?_
    · refine ⟨?_, ?_, ?_, ?_⟩
      · exact (observe_ignore_step _ _ _ _).trans h1
      · exact (observe_is_training _ _ _ _).trans h2
      · intro htr
        have h2' : st1.selfAg.is_training = true := h2.trans htr
        have h3' := h3 htr
        show st1.step ≤ st1.appends + (if st1.selfAg.is_training = true then 1 else 0)
        rw [if_pos h2']
        omega
      · show TraceOK ign tr (st1.trace ++ [Event.selectActionEv st1.step]
            ++ [Event.envStepEv st1.step] ++ [Event.observeEv st1.step])
        exact TraceOK_snoc _ _ _ _
          (TraceOK_snoc _ _ _ _
            (TraceOK_snoc _ _ _ _ h4 (fun s k he => nomatch he))
            (fun s k he => nomatch he))
          (fun s k he => nomatch he)
    · intro st5 hI5 hstep5 happ5
      refine IterOK_bind_keep ign tr _ _ _ (trainSave_inv numIter output ign tr _ hI5) ?_
      intro st6 hI6 hstep6 happ6
      obtain ⟨k1, k2, k3, k4⟩ := hI6
      simp only [IterOK]
      refine trainFinish_inv _ _ _ _ _ _ _ k1 k2 ?_ k4
      intro htr
      have e1 : st6.step = st5.step := hstep6
      have e2 : st6.appends = st5.appends := happ6
      have e3 : st5.step = st1.step := hstep5
      have e4 : st5.appends
          = st1.appends + (if st1.selfAg.is_training = true then 1 else 0) := happ5
      have h2' : st1.selfAg.is_training = true := h2.trans htr
      rw [if_pos h2'] at e4
      have h3' := h3 htr
      omega

theorem trainIter_inv (envR : ℕ → Vec) (envS : ℕ → Vec × ℚ × Bool) (noise : ℕ → Vec)
    (numIter : ℕ) (output : String) (mel : Option ℕ) (ign : ℕ) (tr : Bool)
    (st : LoopSt) (hI : LoopInv ign tr st) :
    IterOK ign tr (trainIter envR envS noise numIter output mel st) := by
  obtain ⟨h1, h2, h3, h4⟩ := hI
  cases hobs : st.obs with
  | some o =>
    simp only [trainIter, hobs]
    exact trainRest_inv envS noise numIter output mel ign tr st o ⟨h1, h2, h3, h4⟩
  | none =>
    simp only [trainIter, hobs]
    cases hg : st.gAgent with
    | none =>
      simp only [hg]
      exact TraceOK_snoc _ _ _ _ h4 (fun s k he => nomatch he)
    | some g =>
      simp only [hg]
      exact trainRest_inv envS noise numIter output mel ign tr _ _
        ⟨h1, h2, h3, TraceOK_snoc _ _ _ _ h4 (fun s k he => nomatch he)⟩

theorem trainLoop_TraceOK (envR : ℕ → Vec) (envS : ℕ → Vec × ℚ × Bool) (noise : ℕ → Vec)
    (numIter : ℕ) (output : String) (mel : Option ℕ) (ign : ℕ) (tr : Bool) :
    ∀ (fuel : ℕ) (st : LoopSt), LoopInv ign tr st →
      TraceOK ign tr (trainLoop envR envS noise numIter output mel fuel st).1 := by
  intro fuel
  induction fuel with
  | zero =>
    intro st hI
    exact hI.2.2.2
  | succ n ih =>
    intro st hI
    unfold trainLoop
    split
    · have h := trainIter_inv envR envS noise numIter output mel ign tr st hI
      cases hit : trainIter envR envS noise numIter output mel st with
      | error pr =>
        rw [hit] at h
        simp only [hit]
        obtain ⟨evs, e⟩ := pr
        exact h
      | ok st' =>
        rw [hit] at h
        simp only [hit]
        exact ih st' h
    · exact hI.2.2.2

/-- C8: in `train`, `update_policy` is only ever invoked at a loop counter
strictly past the warm-up threshold `ignore_step` — which `DDPG.__init__`
sets to 10000 — and when the agent is in training mode, at least
`ignore_step` transitions have been appended to replay memory before any
(in particular the first) learning update. -/
theorem C8_warmup (ag : DDPG) (gA : Option DDPG) (envR : ℕ → Vec)
    (envS : ℕ → Vec × ℚ × Bool) (noise : ℕ → Vec) (numIter : ℕ) (output : String)
    (mel : Option ℕ) (s k : ℕ)
    (hmem : Event.updatePolicyEv s k
        ∈ (ag.train gA envR envS noise numIter output mel).1) :
    ag.ignore_step < s
    ∧ (ag.is_training = true → ag.ignore_step ≤ k)
    ∧ (DDPG.init ag.nb_states ag.nb_actions ag.actorF ag.actor ag.actor_target
        ag.critic ag.critic_target).ignore_step = 10000 := by
  have h := trainLoop_TraceOK envR envS noise numIter output mel ag.ignore_step
      ag.is_training numIter
      { selfAg := ag, gAgent := gA, obs := none, step := 0, episode_steps := 0,
        episode_reward := 0, episode := 0, nsamp := 0, resets := 0, appends := 0,
        fs := [], trace := [] }
      ⟨rfl, rfl, fun _ => Nat.le_refl 0, fun u v hm => absurd hm (List.not_mem_nil _)⟩
  have h2 := h s k hmem
  exact ⟨h2.1, h2.2, rfl⟩

theorem C8_warmup_witness :
    Event.updatePolicyEv 2 3
      ∈ (agC8.train (some agC8) (fun _ => [0]) (fun _ => ([0], 0, false)) (fun _ => [0])
          4 "out" none).1
    ∧ (agC8.ignore_step < 2
       ∧ (agC8.is_training = true → agC8.ignore_step ≤ 3)
       ∧ (DDPG.init agC8.nb_states agC8.nb_actions agC8.actorF agC8.actor agC8.actor_target
            agC8.critic agC8.critic_target).ignore_step = 10000) :=
  ⟨by decide,
   C8_warmup agC8 (some agC8) (fun _ => [0]) (fun _ => ([0], 0, false)) (fun _ => [0])
     4 "out" none 2 3 (by decide)⟩

/-- C9: with any positive iteration budget, `train` enters the episode-start
branch on its first loop iteration (the local `observation` starts as
`None`), calls `env.reset`, and then evaluates the module-level name
`agent`, which `src/ddpg.py` never defines, so the run dies with a
NameError before a single `env.step` is completed: the whole observable
trace is the lone `env.reset` call. -/
theorem C9_train_unbound_agent (ag : DDPG) (envR : ℕ → Vec)
    (envS : ℕ → Vec × ℚ × Bool) (noise : ℕ → Vec) (numIter : ℕ) (output : String)
    (mel : Option ℕ) (h : 0 < numIter) :
    ag.train module_agent envR envS noise numIter output mel
      = ([Event.envResetEv], some (.nameError "agent")) := by
  cases numIter with
  | zero => exact absurd h (by omega)
  | succ m =>
    show trainLoop envR envS noise (m + 1) output mel (m + 1)
        { selfAg := ag, gAgent := module_agent, obs := none, step := 0, episode_steps := 0,
          episode_reward := 0, episode := 0, nsamp := 0, resets := 0, appends := 0,
          fs := [], trace := [] }
      = ([Event.envResetEv], some (.nameError "agent"))
    unfold trainLoop
    rw [if_pos (Nat.succ_pos m)]
    rfl

theorem C9_train_unbound_agent_witness :
    agC4.train module_agent (fun _ => [0]) (fun _ => ([0], 0, false)) (fun _ => [0])
        1 "out" none
      = ([Event.envResetEv], some (.nameError "agent")) :=
  C9_train_unbound_agent agC4 (fun _ => [0]) (fun _ => ([0], 0, false)) (fun _ => [0])
    1 "out" none (by decide)

end RLEPG
